import Mathlib

/-!
Verification development for the `modular_cloud_matcher` point-cloud pose
tracker (`src/modular_cloud_matcher/src/modular_cloud_matcher.cpp`).

The per-frame callback `CloudMatcher::gotCloud` is embedded shallowly:

* sensor floating-point values become the inductive `Scalar` (finite
  rational, NaN, or signed infinity), so that the source's `isnan` test and
  the all-NaN failure sentinel are expressible;
* the 4x4 transformation matrices (`TP` in the source) become rational
  4x4 matrices;
* the external ICP library object (`MSA::ICPSequence`, not part of this
  repository's sources) is modelled from the spec as an explicit state
  record plus a per-frame registration outcome chosen by an oracle;
* ROS publishing/broadcasting becomes lists of emitted events and
  diagnostics returned by the step function.
-/

/-- Model of a sensor floating-point value: NaN, positive or negative
infinity, or a finite value represented as a rational. -/
inductive Scalar where
  | nan : Scalar
  | inf : Scalar
  | ninf : Scalar
  | val : ℚ → Scalar
deriving DecidableEq

/-- The source's `isnan` test on a coordinate. -/
def Scalar.isnan : Scalar → Bool
  | Scalar.nan => true
  | _ => false

/-- A value is finite when it is an actual number: not NaN and not an
infinity. -/
def Scalar.isFiniteVal : Scalar → Bool
  | Scalar.val _ => true
  | _ => false

/-- One point of the incoming cloud (`pcl::PointXYZ`). -/
structure PointXYZ where
  x : Scalar
  y : Scalar
  z : Scalar
deriving DecidableEq

/-- An incoming cloud message: the point list and its header timestamp. -/
structure CloudMsg where
  points : List PointXYZ
  stamp : Nat
deriving DecidableEq

/-- A homogeneous feature column (x, y, z, 1) as built at lines 132-135 of
the source; a `FeatureSet` (`DP` in the source) is the list of its
columns. -/
def FeatureSet : Type := List (Scalar × Scalar × Scalar × Scalar)

instance : DecidableEq FeatureSet := by
  unfold FeatureSet
  infer_instance

/-- Transformation matrices (`TP` in the source): homogeneous 4x4
matrices, idealized over the rationals. -/
abbrev TP : Type := Matrix (Fin 4) (Fin 4) ℚ

/-- The first loop of `gotCloud` (source lines 96-101): count the points
whose x coordinate is not NaN. Only the x coordinate is inspected. -/
def goodCount : List PointXYZ → Nat
  | [] => 0
  | p :: rest => (if p.x.isnan then 0 else 1) + goodCount rest

/-- The second loop of `gotCloud` (source lines 126-138): for each point
whose x coordinate is not NaN, append the column (x, y, z, 1). -/
def buildFeatures : List PointXYZ → FeatureSet
  | [] => []
  | p :: rest =>
    if p.x.isnan then buildFeatures rest
    else (p.x, p.y, p.z, Scalar.val 1) :: buildFeatures rest

/-- The ratio computed at source line 141: `goodCount / cloud.points.size()`.
In the code this expression is only reached when `goodCount >= 1`. -/
def imageRatio (good total : Nat) : ℚ := (good : ℚ) / (total : ℚ)

/-- Modelled from the spec: the state of the external `MSA::ICPSequence`
object, which is not part of this repository's sources. It owns the
current keyframe (or none before bootstrap), the cumulative absolute
transform (`getTransform`), the delta transform of the last successful
call (`getDeltaTransform`), and the keyframe-created flag
(`keyFrameCreatedAtLastCall`). -/
structure ICPState where
  keyframe : Option FeatureSet
  transform : TP
  delta : TP
  keyFrameCreatedAtLastCall : Bool

/-- Modelled from the spec: the per-frame outcome decided by the external
ICP solver, treated as an oracle input — either convergence with a delta
transform, a match ratio and the solver's keyframe-refresh decision, or a
convergence failure. -/
inductive RegOutcome where
  | converged : TP → ℚ → Bool → RegOutcome
  | failed : RegOutcome

/-- Modelled from the spec: the `icp(dp)` call. On convergence the
absolute transform is composed on the right with the delta transform, the
delta is stored, and when the solver decides to refresh its keyframe the
current feature set is adopted. On a convergence failure the state's
transforms are left unchanged and no keyframe was created (the source's
own comment at lines 189-190 relies on this). Returns the updated state
and the `icpWasSuccess` flag. -/
def icpMatch (s : ICPState) (dp : FeatureSet) (o : RegOutcome) : ICPState × Bool :=
  match o with
  | RegOutcome.converged d _ kc =>
    ({ keyframe := if kc then some dp else s.keyframe,
       transform := s.transform * d,
       delta := d,
       keyFrameCreatedAtLastCall := kc }, true)
  | RegOutcome.failed =>
    ({ s with keyFrameCreatedAtLastCall := false }, false)

/-- Modelled from the spec: `icp.resetTracking(dp)` discards the current
keyframe and adopts the given feature set as the new keyframe; it touches
nothing else. -/
def resetTracking (s : ICPState) (dp : FeatureSet) : ICPState :=
  { s with keyframe := some dp }

/-- The delta-pose message (`geometry_msgs::PoseWithCovarianceStamped`)
published on `posePub`, abstracted to its stamp, the seven
position/orientation components and a success tag recording which branch
filled it. -/
structure DeltaPose where
  stamp : Nat
  px : Scalar
  py : Scalar
  pz : Scalar
  ox : Scalar
  oy : Scalar
  oz : Scalar
  ow : Scalar
  success : Bool
deriving DecidableEq

/-- The failure-sentinel delta pose: every position and orientation
component is NaN (source lines 113-119 and 192-198). -/
def nanDelta (stamp : Nat) : DeltaPose :=
  { stamp := stamp
    px := Scalar.nan, py := Scalar.nan, pz := Scalar.nan
    ox := Scalar.nan, oy := Scalar.nan, oz := Scalar.nan, ow := Scalar.nan
    success := false }

/-- True when every position and orientation component of the message is
NaN. -/
def DeltaPose.isNaNSentinel (e : DeltaPose) : Bool :=
  e.px.isnan && e.py.isnan && e.pz.isnan &&
  e.ox.isnan && e.oy.isnan && e.oz.isnan && e.ow.isnan

/-- Configuration of the matcher node: the delta-pose switch (command
line `--senddeltapose`), the startup drop count parameter, and — modelled
from the spec — the external Eigen rotation-matrix-to-quaternion
conversion used only for display output. -/
structure MatcherConfig where
  sendDeltaPoseMessage : Bool
  startupDropCount : Nat
  quatOfTransform : TP → Scalar × Scalar × Scalar × Scalar

/-- The delta-pose message filled on a successful registration (source
lines 178-184): position from the translation column of the delta
transform, orientation from the quaternion of its rotation block. -/
def successDelta (cfg : MatcherConfig) (stamp : Nat) (d : TP) : DeltaPose :=
  { stamp := stamp
    px := Scalar.val (d 0 3), py := Scalar.val (d 1 3), pz := Scalar.val (d 2 3)
    ox := (cfg.quatOfTransform d).1
    oy := (cfg.quatOfTransform d).2.1
    oz := (cfg.quatOfTransform d).2.2.1
    ow := (cfg.quatOfTransform d).2.2.2
    success := true }

/-- An output event of one frame: a delta-pose message on `posePub`, a
pose appended to the path and published on `pathPub`, or the absolute
transform broadcast on `tf`. -/
inductive OutEvent where
  | deltaPose : DeltaPose → OutEvent
  | pathPose : TP → OutEvent
  | tfBroadcast : TP → Nat → OutEvent

def OutEvent.isDeltaPose : OutEvent → Bool
  | OutEvent.deltaPose _ => true
  | _ => false

def OutEvent.isPathPose : OutEvent → Bool
  | OutEvent.pathPose _ => true
  | _ => false

def OutEvent.isTfBroadcast : OutEvent → Bool
  | OutEvent.tfBroadcast _ _ => true
  | _ => false

/-- A diagnostic printed by the frame handler: the "no good points" error
(source line 104) or the "Partial image!" error with its ratio and good
count (source line 146). -/
inductive Diag where
  | noGoodPoints : Diag
  | incompleteImage : ℚ → Nat → Diag

/-- The tracker's own mutable state: the warm-up drop counter and the ICP
object's state. -/
structure TrackerState where
  dropCount : Nat
  icp : ICPState

/-- Modelled from the spec: the ICP object starts with no keyframe and
identity transforms. -/
def initICP : ICPState :=
  { keyframe := none, transform := 1, delta := 1, keyFrameCreatedAtLastCall := false }

/-- The tracker state right after construction: `dropCount` is
initialized to 0 (source line 61). -/
def initTracker : TrackerState :=
  { dropCount := 0, icp := initICP }

/-- Result of handling one frame: the new tracker state, the output
events in emission order, the diagnostics, and how many times the ICP
registration was invoked. -/
structure StepResult where
  state : TrackerState
  events : List OutEvent
  diags : List Diag
  regInvocations : Nat

/-- Result of the post-warm-up part of the handler, before the tracker
state is reassembled. -/
structure ProcResult where
  icp : ICPState
  events : List OutEvent
  diags : List Diag
  regInvocations : Nat

/-- The `goodCount == 0` branch (source lines 102-124): report the error,
publish the all-NaN sentinel delta pose stamped with the message's own
stamp when delta output is enabled, and return without touching the ICP
state or broadcasting. -/
def emptyCloudResult (cfg : MatcherConfig) (icp0 : ICPState) (stamp : Nat) : ProcResult :=
  { icp := icp0
    events := if cfg.sendDeltaPoseMessage then [OutEvent.deltaPose (nanDelta stamp)] else []
    diags := [Diag.noGoodPoints]
    regInvocations := 0 }

/-- The delta-pose block (source lines 164-201): when delta output is
enabled, publish the delta pose of a success, or reset the tracker to the
current feature set and publish the all-NaN sentinel on failure. Returns
the (possibly reset) ICP state and the published events. -/
def deltaStage (cfg : MatcherConfig) (icp1 : ICPState) (success : Bool)
    (dp : FeatureSet) (stamp : Nat) : ICPState × List OutEvent :=
  if cfg.sendDeltaPoseMessage then
    if success then (icp1, [OutEvent.deltaPose (successDelta cfg stamp icp1.delta)])
    else (resetTracking icp1 dp, [OutEvent.deltaPose (nanDelta stamp)])
  else (icp1, [])

/-- The non-empty path of the handler (source lines 126-232): build the
feature set, warn when the image is incomplete, invoke the ICP
registration once, run the delta-pose block, publish the path pose when a
keyframe was created at this call, and broadcast the absolute
transform. -/
def mainResult (cfg : MatcherConfig) (icp0 : ICPState) (msg : CloudMsg)
    (o : RegOutcome) : ProcResult :=
  let gc := goodCount msg.points
  let dp := buildFeatures msg.points
  let m := icpMatch icp0 dp o
  let s := deltaStage cfg m.1 m.2 dp msg.stamp
  { icp := s.1
    events := s.2
      ++ (if s.1.keyFrameCreatedAtLastCall then [OutEvent.pathPose s.1.transform] else [])
      ++ [OutEvent.tfBroadcast s.1.transform msg.stamp]
    diags := if gc < 10000 then [Diag.incompleteImage (imageRatio gc msg.points.length) gc] else []
    regInvocations := 1 }

/-- The post-warm-up body of `gotCloud`. -/
def processCloud (cfg : MatcherConfig) (icp0 : ICPState) (msg : CloudMsg)
    (o : RegOutcome) : ProcResult :=
  if goodCount msg.points = 0 then emptyCloudResult cfg icp0 msg.stamp
  else mainResult cfg icp0 msg o

/-- The warm-up branch of `gotCloud` (source lines 79-83): increment the
drop counter and return with no output at all. -/
def dropResult (st : TrackerState) : StepResult :=
  { state := { st with dropCount := st.dropCount + 1 }
    events := [], diags := [], regInvocations := 0 }

/-- Reassemble the tracker state after the post-warm-up body ran. -/
def applyProc (st : TrackerState) (r : ProcResult) : StepResult :=
  { state := { st with icp := r.icp }
    events := r.events, diags := r.diags, regInvocations := r.regInvocations }

/-- The per-frame callback `CloudMatcher::gotCloud` (source lines
77-233), with the external ICP solver's per-frame decision passed as the
oracle `o`. -/
def gotCloud (cfg : MatcherConfig) (st : TrackerState) (msg : CloudMsg)
    (o : RegOutcome) : StepResult :=
  if st.dropCount < cfg.startupDropCount then dropResult st
  else applyProc st (processCloud cfg st.icp msg o)

/-- Feed a list of frames (each with its oracle outcome) through the
callback in arrival order, collecting every per-frame result. -/
def runFrames (cfg : MatcherConfig) :
    TrackerState → List (CloudMsg × RegOutcome) → TrackerState × List StepResult
  | st, [] => (st, [])
  | st, (m, o) :: rest =>
    ((runFrames cfg (gotCloud cfg st m o).state rest).1,
     gotCloud cfg st m o :: (runFrames cfg (gotCloud cfg st m o).state rest).2)

/-- Follows the spec's words (not the source): a point is valid when all
three of its coordinates are finite, neither NaN nor infinite. Used to
compare the spec's validity notion with the source's test. -/
def specValidPoint (p : PointXYZ) : Bool :=
  p.x.isFiniteVal && p.y.isFiniteVal && p.z.isFiniteVal

/-- A stand-in for the external quaternion conversion, used to build
concrete configurations. -/
def quat0 : TP → Scalar × Scalar × Scalar × Scalar :=
  fun _ => (Scalar.val 0, Scalar.val 0, Scalar.val 0, Scalar.val 1)

/-- Concrete configuration: delta-pose output enabled, no warm-up. -/
def cfgDelta : MatcherConfig :=
  { sendDeltaPoseMessage := true, startupDropCount := 0, quatOfTransform := quat0 }

/-- Concrete configuration: delta-pose output disabled, no warm-up. -/
def cfgNoDelta : MatcherConfig :=
  { sendDeltaPoseMessage := false, startupDropCount := 0, quatOfTransform := quat0 }

/-- Concrete configuration: delta-pose output enabled, two warm-up
frames. -/
def cfgWarm : MatcherConfig :=
  { sendDeltaPoseMessage := true, startupDropCount := 2, quatOfTransform := quat0 }

/-- Concrete frame with one fully finite point. -/
def frame1 : CloudMsg :=
  { points := [{ x := Scalar.val 1, y := Scalar.val 2, z := Scalar.val 3 }], stamp := 5 }

/-- Concrete frame whose single point has every coordinate NaN. -/
def frameNaN : CloudMsg :=
  { points := [{ x := Scalar.nan, y := Scalar.nan, z := Scalar.nan }], stamp := 9 }

/-- Concrete frame with an empty point list. -/
def frameEmpty : CloudMsg := { points := [], stamp := 7 }

/-- Concrete cloud holding one point with finite x and z but NaN y: the
source counts it as good, the spec's all-finite notion does not. -/
def cloudC1 : List PointXYZ :=
  [{ x := Scalar.val 0, y := Scalar.nan, z := Scalar.val 0 }]

theorem goodCount_eq_filter (pts : List PointXYZ) :
    goodCount pts = (pts.filter fun p => !(Scalar.isnan p.x)).length := by
  induction pts with
  | nil => rfl
  | cons p rest ih =>
    cases h : p.x.isnan <;> simp [goodCount, h, ih, Nat.add_comm]

theorem goodCount_le_length (pts : List PointXYZ) : goodCount pts ≤ pts.length := by
  rw [goodCount_eq_filter]
  exact List.length_filter_le _ _

theorem buildFeatures_eq_map (pts : List PointXYZ) :
    buildFeatures pts =
      (pts.filter fun p => !(Scalar.isnan p.x)).map fun p => (p.x, p.y, p.z, Scalar.val 1) := by
  induction pts with
  | nil => rfl
  | cons p rest ih =>
    cases h : p.x.isnan <;> simp [buildFeatures, h, ih]

theorem buildFeatures_length (pts : List PointXYZ) :
    (buildFeatures pts).length = goodCount pts := by
  rw [buildFeatures_eq_map, goodCount_eq_filter, List.length_map]

/-- Claim C1, counterexample: on a cloud whose single point has finite x
and z but NaN y, the source builds one feature column although no point
has all three coordinates finite, so the FeatureSet column count differs
from the number of all-finite points. -/
theorem claim1_counterexample :
    (buildFeatures cloudC1).length ≠ (cloudC1.filter fun p => specValidPoint p).length := by
  decide

/-- Claim C1, amended: a point counts as valid if and only if its x
coordinate is not NaN (the y and z coordinates are never inspected and
infinities are not excluded), and the FeatureSet built from the batch has
exactly one column per valid point, each column being (x, y, z, 1). -/
theorem claim1_featureSet (pts : List PointXYZ) :
    (buildFeatures pts).length = goodCount pts ∧
    goodCount pts = (pts.filter fun p => !(Scalar.isnan p.x)).length ∧
    buildFeatures pts =
      (pts.filter fun p => !(Scalar.isnan p.x)).map fun p => (p.x, p.y, p.z, Scalar.val 1) := by
  exact ⟨buildFeatures_length pts, goodCount_eq_filter pts, buildFeatures_eq_map pts⟩

/-- Claim C2, counterexample: with delta-pose output disabled, a
post-warm-up non-empty frame on which registration fails does not reset
the keyframe to the current frame's FeatureSet (the keyframe stays
`none`), so the reset is not unconditional as the claim states. -/
theorem claim2_counterexample :
    (¬ initTracker.dropCount < cfgNoDelta.startupDropCount) ∧
    goodCount frame1.points ≠ 0 ∧
    (gotCloud cfgNoDelta initTracker frame1 RegOutcome.failed).state.icp.keyframe
      ≠ some (buildFeatures frame1.points) := by
  decide

/-- Claim C2, amended: for every non-empty post-warm-up frame on which
registration fails, when delta-pose output is enabled the engine resets
the keyframe to the current frame's FeatureSet and emits one delta-pose
event whose position and orientation components are all NaN with
success = false; when delta-pose output is disabled neither the reset nor
the event happens; in both cases the failure is not fatal (the absolute
transform broadcast is still emitted) and registration is invoked exactly
once, never retried. -/
theorem claim2_failureRecovery (cfg : MatcherConfig) (st : TrackerState) (msg : CloudMsg)
    (hdrop : ¬ st.dropCount < cfg.startupDropCount)
    (hne : goodCount msg.points ≠ 0) :
    (cfg.sendDeltaPoseMessage = true →
      (gotCloud cfg st msg RegOutcome.failed).state.icp.keyframe
          = some (buildFeatures msg.points) ∧
      (gotCloud cfg st msg RegOutcome.failed).events.filter OutEvent.isDeltaPose
          = [OutEvent.deltaPose (nanDelta msg.stamp)] ∧
      (nanDelta msg.stamp).isNaNSentinel = true ∧
      (nanDelta msg.stamp).success = false) ∧
    (cfg.sendDeltaPoseMessage = false →
      (gotCloud cfg st msg RegOutcome.failed).state.icp.keyframe = st.icp.keyframe ∧
      (gotCloud cfg st msg RegOutcome.failed).events.filter OutEvent.isDeltaPose = []) ∧
    (gotCloud cfg st msg RegOutcome.failed).regInvocations = 1 ∧
    (gotCloud cfg st msg RegOutcome.failed).events.filter OutEvent.isTfBroadcast
      = [OutEvent.tfBroadcast st.icp.transform msg.stamp] := by
  by_cases hs : cfg.sendDeltaPoseMessage <;>
    simp [gotCloud, hdrop, processCloud, hne, mainResult, deltaStage, hs, applyProc,
      icpMatch, resetTracking, OutEvent.isDeltaPose, OutEvent.isPathPose,
      OutEvent.isTfBroadcast, List.filter, nanDelta, DeltaPose.isNaNSentinel, Scalar.isnan]

/-- Claim C2, witness: concrete instance with delta-pose output enabled
and a failing registration on a one-point frame. -/
theorem claim2_witness :
    (¬ initTracker.dropCount < cfgDelta.startupDropCount) ∧
    goodCount frame1.points ≠ 0 ∧
    cfgDelta.sendDeltaPoseMessage = true ∧
    (gotCloud cfgDelta initTracker frame1 RegOutcome.failed).state.icp.keyframe
      = some (buildFeatures frame1.points) :=
  ⟨by decide, by decide, rfl,
    ((claim2_failureRecovery cfgDelta initTracker frame1 (by decide) (by decide)).1 rfl).1⟩

/-- Claim C3: for every non-empty post-warm-up frame, exactly one
absolute-pose transform broadcast is emitted whatever the registration
outcome; on a failed frame the broadcast transform equals the absolute
transform from before the call, which is left unchanged. -/
theorem claim3_broadcastEveryFrame (cfg : MatcherConfig) (st : TrackerState)
    (msg : CloudMsg) (o : RegOutcome)
    (hdrop : ¬ st.dropCount < cfg.startupDropCount)
    (hne : goodCount msg.points ≠ 0) :
    ((gotCloud cfg st msg o).events.filter OutEvent.isTfBroadcast).length = 1 ∧
    (o = RegOutcome.failed →
      (gotCloud cfg st msg o).events.filter OutEvent.isTfBroadcast
          = [OutEvent.tfBroadcast st.icp.transform msg.stamp] ∧
      (gotCloud cfg st msg o).state.icp.transform = st.icp.transform) := by
  cases o with
  | converged d mr kc =>
    refine ⟨?_, by intro h; cases h⟩
    by_cases hs : cfg.sendDeltaPoseMessage <;> cases kc <;>
      simp [gotCloud, hdrop, processCloud, hne, mainResult, deltaStage, hs, applyProc,
        icpMatch, resetTracking, OutEvent.isTfBroadcast, OutEvent.isPathPose,
        OutEvent.isDeltaPose, List.filter]
  | failed =>
    by_cases hs : cfg.sendDeltaPoseMessage <;>
      simp [gotCloud, hdrop, processCloud, hne, mainResult, deltaStage, hs, applyProc,
        icpMatch, resetTracking, OutEvent.isTfBroadcast, OutEvent.isPathPose,
        OutEvent.isDeltaPose, List.filter]

/-- Claim C3, witness: concrete failing frame, the broadcast is emitted
once and carries the pre-call absolute transform. -/
theorem claim3_witness :
    (¬ initTracker.dropCount < cfgDelta.startupDropCount) ∧
    goodCount frame1.points ≠ 0 ∧
    ((gotCloud cfgDelta initTracker frame1 RegOutcome.failed).events.filter
        OutEvent.isTfBroadcast).length = 1 :=
  ⟨by decide, by decide,
    (claim3_broadcastEveryFrame cfgDelta initTracker frame1 RegOutcome.failed
      (by decide) (by decide)).1⟩

/-- Claim C4: a post-warm-up frame with zero valid points never invokes
registration; when delta-pose output is enabled the only event is one
delta-pose message whose position and orientation fields are all NaN,
stamped with the frame's original timestamp; no absolute-pose broadcast
is emitted. -/
theorem claim4_emptyCloud (cfg : MatcherConfig) (st : TrackerState) (msg : CloudMsg)
    (o : RegOutcome)
    (hdrop : ¬ st.dropCount < cfg.startupDropCount)
    (hempty : goodCount msg.points = 0) :
    (gotCloud cfg st msg o).regInvocations = 0 ∧
    (cfg.sendDeltaPoseMessage = true →
      (gotCloud cfg st msg o).events = [OutEvent.deltaPose (nanDelta msg.stamp)]) ∧
    (cfg.sendDeltaPoseMessage = false → (gotCloud cfg st msg o).events = []) ∧
    (gotCloud cfg st msg o).events.filter OutEvent.isTfBroadcast = [] ∧
    (nanDelta msg.stamp).isNaNSentinel = true ∧
    (nanDelta msg.stamp).stamp = msg.stamp := by
  by_cases hs : cfg.sendDeltaPoseMessage <;>
    simp [gotCloud, hdrop, processCloud, hempty, emptyCloudResult, hs, applyProc,
      OutEvent.isTfBroadcast, List.filter, nanDelta, DeltaPose.isNaNSentinel, Scalar.isnan]

/-- Claim C4, witness: concrete all-NaN one-point frame with delta-pose
output enabled. -/
theorem claim4_witness :
    (¬ initTracker.dropCount < cfgDelta.startupDropCount) ∧
    goodCount frameNaN.points = 0 ∧
    cfgDelta.sendDeltaPoseMessage = true ∧
    (gotCloud cfgDelta initTracker frameNaN RegOutcome.failed).events
      = [OutEvent.deltaPose (nanDelta frameNaN.stamp)] :=
  ⟨by decide, by decide, rfl,
    (claim4_emptyCloud cfgDelta initTracker frameNaN RegOutcome.failed
      (by decide) (by decide)).2.1 rfl⟩

/-- Claim C6: for every post-warm-up frame with at least one valid point,
registration is invoked exactly once; the low-valid-count condition only
determines whether the incomplete-image diagnostic is emitted and never
suppresses the registration call or the broadcast. -/
theorem claim6_registrationAlwaysAttempted (cfg : MatcherConfig) (st : TrackerState)
    (msg : CloudMsg) (o : RegOutcome)
    (hdrop : ¬ st.dropCount < cfg.startupDropCount)
    (hne : goodCount msg.points ≠ 0) :
    (gotCloud cfg st msg o).regInvocations = 1 ∧
    (gotCloud cfg st msg o).diags
      = (if goodCount msg.points < 10000 then
          [Diag.incompleteImage (imageRatio (goodCount msg.points) msg.points.length)
            (goodCount msg.points)]
        else []) ∧
    ((gotCloud cfg st msg o).events.filter OutEvent.isTfBroadcast).length = 1 := by
  cases o with
  | converged d mr kc =>
    by_cases hs : cfg.sendDeltaPoseMessage <;> cases kc <;>
      simp [gotCloud, hdrop, processCloud, hne, mainResult, deltaStage, hs, applyProc,
        icpMatch, resetTracking, OutEvent.isTfBroadcast, OutEvent.isPathPose,
        OutEvent.isDeltaPose, List.filter]
  | failed =>
    by_cases hs : cfg.sendDeltaPoseMessage <;>
      simp [gotCloud, hdrop, processCloud, hne, mainResult, deltaStage, hs, applyProc,
        icpMatch, resetTracking, OutEvent.isTfBroadcast, OutEvent.isPathPose,
        OutEvent.isDeltaPose, List.filter]

/-- Claim C6, witness: a single-good-point frame (well below the 10000
threshold) still invokes registration exactly once. -/
theorem claim6_witness :
    (¬ initTracker.dropCount < cfgDelta.startupDropCount) ∧
    goodCount frame1.points ≠ 0 ∧
    goodCount frame1.points < 10000 ∧
    (gotCloud cfgDelta initTracker frame1 RegOutcome.failed).regInvocations = 1 :=
  ⟨by decide, by decide, by decide,
    (claim6_registrationAlwaysAttempted cfgDelta initTracker frame1 RegOutcome.failed
      (by decide) (by decide)).1⟩

/-- Claim C7: on a successful registration with previous absolute
transform T0 and delta transform D, the new absolute transform is T0
composed with D; in particular an identity T0 yields D. -/
theorem claim7_composeTransforms (cfg : MatcherConfig) (st : TrackerState)
    (msg : CloudMsg) (d : TP) (mr : ℚ) (kc : Bool)
    (hdrop : ¬ st.dropCount < cfg.startupDropCount)
    (hne : goodCount msg.points ≠ 0) :
    (gotCloud cfg st msg (RegOutcome.converged d mr kc)).state.icp.transform
      = st.icp.transform * d ∧
    (st.icp.transform = 1 →
      (gotCloud cfg st msg (RegOutcome.converged d mr kc)).state.icp.transform = d) := by
  have h : (gotCloud cfg st msg (RegOutcome.converged d mr kc)).state.icp.transform
      = st.icp.transform * d := by
    by_cases hs : cfg.sendDeltaPoseMessage <;>
      simp [gotCloud, hdrop, processCloud, hne, mainResult, deltaStage, hs, applyProc,
        icpMatch, resetTracking]
  exact ⟨h, fun h1 => by rw [h, h1, one_mul]⟩

/-- Claim C7, witness: concrete successful registration starting from the
identity absolute transform. -/
theorem claim7_witness :
    (¬ initTracker.dropCount < cfgDelta.startupDropCount) ∧
    goodCount frame1.points ≠ 0 ∧
    initTracker.icp.transform = 1 ∧
    (gotCloud cfgDelta initTracker frame1 (RegOutcome.converged 1 1 true)).state.icp.transform
      = 1 :=
  ⟨by decide, by decide, rfl,
    (claim7_composeTransforms cfgDelta initTracker frame1 1 1 true
      (by decide) (by decide)).2 rfl⟩

/-- Claim C8: for every processed non-empty post-warm-up frame, the
keyframe/path event is emitted if and only if the registration object
reports that a keyframe was created at this call, and it carries the
current absolute transform. -/
theorem claim8_keyframeEvent (cfg : MatcherConfig) (st : TrackerState)
    (msg : CloudMsg) (o : RegOutcome)
    (hdrop : ¬ st.dropCount < cfg.startupDropCount)
    (hne : goodCount msg.points ≠ 0) :
    (gotCloud cfg st msg o).events.filter OutEvent.isPathPose
      = (if (gotCloud cfg st msg o).state.icp.keyFrameCreatedAtLastCall then
          [OutEvent.pathPose (gotCloud cfg st msg o).state.icp.transform]
        else []) := by
  cases o with
  | converged d mr kc =>
    by_cases hs : cfg.sendDeltaPoseMessage <;> cases kc <;>
      simp [gotCloud, hdrop, processCloud, hne, mainResult, deltaStage, hs, applyProc,
        icpMatch, resetTracking, OutEvent.isTfBroadcast, OutEvent.isPathPose,
        OutEvent.isDeltaPose, List.filter]
  | failed =>
    by_cases hs : cfg.sendDeltaPoseMessage <;>
      simp [gotCloud, hdrop, processCloud, hne, mainResult, deltaStage, hs, applyProc,
        icpMatch, resetTracking, OutEvent.isTfBroadcast, OutEvent.isPathPose,
        OutEvent.isDeltaPose, List.filter]

/-- Claim C8, witness: concrete successful registration whose solver
reports a created keyframe. -/
theorem claim8_witness :
    (¬ initTracker.dropCount < cfgDelta.startupDropCount) ∧
    goodCount frame1.points ≠ 0 ∧
    (gotCloud cfgDelta initTracker frame1 (RegOutcome.converged 1 1 true)).events.filter
        OutEvent.isPathPose
      = (if (gotCloud cfgDelta initTracker frame1
              (RegOutcome.converged 1 1 true)).state.icp.keyFrameCreatedAtLastCall then
          [OutEvent.pathPose (gotCloud cfgDelta initTracker frame1
              (RegOutcome.converged 1 1 true)).state.icp.transform]
        else []) :=
  ⟨by decide, by decide,
    claim8_keyframeEvent cfgDelta initTracker frame1 (RegOutcome.converged 1 1 true)
      (by decide) (by decide)⟩

theorem gotCloud_dropCount (cfg : MatcherConfig) (st : TrackerState) (msg : CloudMsg)
    (o : RegOutcome) :
    (gotCloud cfg st msg o).state.dropCount
      = if st.dropCount < cfg.startupDropCount then st.dropCount + 1 else st.dropCount := by
  unfold gotCloud
  split <;> rfl

theorem runFrames_take_warm (cfg : MatcherConfig) (inputs : List (CloudMsg × RegOutcome)) :
    ∀ st : TrackerState,
      ∀ r ∈ (runFrames cfg st inputs).2.take (cfg.startupDropCount - st.dropCount),
        r.events = [] ∧ r.diags = [] ∧ r.regInvocations = 0 := by
  induction inputs with
  | nil =>
    intro st r hr
    simp [runFrames] at hr
  | cons mo rest ih =>
    obtain ⟨m, o⟩ := mo
    intro st r hr
    by_cases h : st.dropCount < cfg.startupDropCount
    · have hg : gotCloud cfg st m o = dropResult st := by
        unfold gotCloud
        rw [if_pos h]
      have hsub : cfg.startupDropCount - st.dropCount
          = (cfg.startupDropCount - (st.dropCount + 1)) + 1 := by omega
      simp only [runFrames, hg] at hr
      rw [hsub, List.take_succ_cons] at hr
      rcases List.mem_cons.mp hr with h1 | h2
      · rw [h1]
        exact ⟨rfl, rfl, rfl⟩
      · exact ih (dropResult st).state r h2
    · have h0 : cfg.startupDropCount - st.dropCount = 0 := by omega
      rw [h0] at hr
      simp at hr

theorem runFrames_warm_state (cfg : MatcherConfig) (inputs : List (CloudMsg × RegOutcome)) :
    ∀ st : TrackerState, st.dropCount + inputs.length ≤ cfg.startupDropCount →
      (runFrames cfg st inputs).1
        = { dropCount := st.dropCount + inputs.length, icp := st.icp } := by
  induction inputs with
  | nil =>
    intro st h
    simp [runFrames]
  | cons mo rest ih =>
    obtain ⟨m, o⟩ := mo
    intro st h
    have hlen : ((m, o) :: rest).length = rest.length + 1 := rfl
    have hlt : st.dropCount < cfg.startupDropCount := by omega
    have hg : gotCloud cfg st m o = dropResult st := by
      unfold gotCloud
      rw [if_pos hlt]
    simp only [runFrames, hg]
    have hrec := ih (dropResult st).state (by simp [dropResult]; omega)
    rw [hrec]
    simp [dropResult]
    omega

theorem runFrames_dropCount_le (cfg : MatcherConfig) (inputs : List (CloudMsg × RegOutcome)) :
    ∀ st : TrackerState, st.dropCount ≤ cfg.startupDropCount →
      ((runFrames cfg st inputs).1).dropCount ≤ cfg.startupDropCount := by
  induction inputs with
  | nil =>
    intro st h
    simpa [runFrames] using h
  | cons mo rest ih =>
    obtain ⟨m, o⟩ := mo
    intro st h
    simp only [runFrames]
    apply ih
    rw [gotCloud_dropCount]
    split <;> omega

/-- Claim C5: a frame arriving while the drop counter is below the
startup drop count is dropped before any other processing, producing the
drop result whatever the frame's content or the solver's outcome; the
first N results of any run from the fresh tracker carry no events, no
diagnostics and no registration call; after exactly N frames the state is
the untouched initial ICP state with the counter at N, and the next frame
is handed to the normal processing body. -/
theorem claim5_warmup (cfg : MatcherConfig) (st : TrackerState) (msg : CloudMsg)
    (o : RegOutcome) (inputs : List (CloudMsg × RegOutcome)) :
    (st.dropCount < cfg.startupDropCount → gotCloud cfg st msg o = dropResult st) ∧
    (∀ r ∈ (runFrames cfg initTracker inputs).2.take cfg.startupDropCount,
        r.events = [] ∧ r.diags = [] ∧ r.regInvocations = 0) ∧
    (inputs.length = cfg.startupDropCount →
      (runFrames cfg initTracker inputs).1
        = { dropCount := cfg.startupDropCount, icp := initICP }) ∧
    (st.dropCount = cfg.startupDropCount →
      gotCloud cfg st msg o = applyProc st (processCloud cfg st.icp msg o)) := by
  refine ⟨?_, ?_, ?_, ?_⟩
  · intro h
    unfold gotCloud
    rw [if_pos h]
  · intro r hr
    apply runFrames_take_warm cfg inputs initTracker r
    simpa [initTracker] using hr
  · intro h
    have hrec := runFrames_warm_state cfg inputs initTracker (by simp [initTracker, h])
    rw [hrec]
    simp [initTracker, h]
  · intro h
    unfold gotCloud
    rw [if_neg (by omega)]

/-- Claim C5, witness: with a startup drop count of two, the first frame
from the fresh tracker is dropped, and two frames leave the initial ICP
state untouched with the counter saturated. -/
theorem claim5_witness :
    initTracker.dropCount < cfgWarm.startupDropCount ∧
    gotCloud cfgWarm initTracker frame1 RegOutcome.failed = dropResult initTracker ∧
    (runFrames cfgWarm initTracker
        [(frame1, RegOutcome.failed), (frameNaN, RegOutcome.failed)]).1
      = { dropCount := cfgWarm.startupDropCount, icp := initICP } :=
  ⟨by decide,
   (claim5_warmup cfgWarm initTracker frame1 RegOutcome.failed []).1 (by decide),
   (claim5_warmup cfgWarm initTracker frame1 RegOutcome.failed
      [(frame1, RegOutcome.failed), (frameNaN, RegOutcome.failed)]).2.2.1 (by decide)⟩

/-- Claim C9: for a batch with at least one point, the image ratio is the
valid count divided by the total count and lies in [0, 1]; a batch with
zero points has a zero good count, so the handler takes the empty-cloud
branch where the ratio expression is never evaluated (no registration, no
incomplete-image diagnostic), and the ratio value at (0, 0) is 0. -/
theorem claim9_validRatio (pts : List PointXYZ) (cfg : MatcherConfig) (st : TrackerState)
    (msg : CloudMsg) (o : RegOutcome) :
    (1 ≤ pts.length →
      imageRatio (goodCount pts) pts.length = (goodCount pts : ℚ) / (pts.length : ℚ) ∧
      0 ≤ imageRatio (goodCount pts) pts.length ∧
      imageRatio (goodCount pts) pts.length ≤ 1) ∧
    (msg.points.length = 0 → ¬ st.dropCount < cfg.startupDropCount →
      imageRatio (goodCount msg.points) msg.points.length = 0 ∧
      (gotCloud cfg st msg o).regInvocations = 0 ∧
      (gotCloud cfg st msg o).diags = [Diag.noGoodPoints]) := by
  constructor
  · intro h
    refine ⟨rfl, div_nonneg (Nat.cast_nonneg _) (Nat.cast_nonneg _), ?_⟩
    rw [imageRatio, div_le_one (by exact_mod_cast Nat.lt_of_lt_of_le Nat.zero_lt_one h)]
    exact_mod_cast goodCount_le_length pts
  · intro h hdrop
    have hnil : msg.points = [] := List.eq_nil_of_length_eq_zero h
    have hg : goodCount msg.points = 0 := by rw [hnil]; rfl
    refine ⟨?_, ?_, ?_⟩
    · rw [hg, h]
      simp [imageRatio]
    · simp [gotCloud, hdrop, processCloud, hg, emptyCloudResult, applyProc]
    · simp [gotCloud, hdrop, processCloud, hg, emptyCloudResult, applyProc]

/-- Claim C9, witness: a one-point batch has ratio at most one, and the
empty batch is diverted to the empty-cloud branch with no registration
call. -/
theorem claim9_witness :
    1 ≤ frame1.points.length ∧
    imageRatio (goodCount frame1.points) frame1.points.length ≤ 1 ∧
    frameEmpty.points.length = 0 ∧
    (gotCloud cfgDelta initTracker frameEmpty RegOutcome.failed).regInvocations = 0 :=
  ⟨by decide,
   ((claim9_validRatio frame1.points cfgDelta initTracker frameEmpty
      RegOutcome.failed).1 (by decide)).2.2,
   rfl,
   ((claim9_validRatio frame1.points cfgDelta initTracker frameEmpty
      RegOutcome.failed).2 rfl (by decide)).2.1⟩

/-- Claim C10: the drop counter starts at 0, increases by exactly one on
each dropped frame and is unchanged otherwise, never exceeds the startup
drop count along any run from the fresh tracker, and once it has reached
the startup drop count it stays there and every later frame goes to the
normal processing body — the warm-up phase never returns. -/
theorem claim10_dropCountInvariant (cfg : MatcherConfig) (st : TrackerState)
    (msg : CloudMsg) (o : RegOutcome) (inputs : List (CloudMsg × RegOutcome)) :
    initTracker.dropCount = 0 ∧
    ((gotCloud cfg st msg o).state.dropCount
      = if st.dropCount < cfg.startupDropCount then st.dropCount + 1 else st.dropCount) ∧
    (st.dropCount ≤ cfg.startupDropCount →
      (gotCloud cfg st msg o).state.dropCount ≤ cfg.startupDropCount) ∧
    ((runFrames cfg initTracker inputs).1.dropCount ≤ cfg.startupDropCount) ∧
    (st.dropCount = cfg.startupDropCount →
      (gotCloud cfg st msg o).state.dropCount = cfg.startupDropCount ∧
      gotCloud cfg st msg o = applyProc st (processCloud cfg st.icp msg o)) := by
  refine ⟨rfl, gotCloud_dropCount cfg st msg o, ?_, ?_, ?_⟩
  · intro h
    rw [gotCloud_dropCount]
    split <;> omega
  · exact runFrames_dropCount_le cfg inputs initTracker (by simp [initTracker])
  · intro h
    constructor
    · rw [gotCloud_dropCount, if_neg (by omega)]
      exact h
    · unfold gotCloud
      rw [if_neg (by omega)]

/-- Claim C10, witness: the counter starts at zero, a run of three frames
against a two-frame warm-up never pushes it past two. -/
theorem claim10_witness :
    initTracker.dropCount = 0 ∧
    (runFrames cfgWarm initTracker
        [(frame1, RegOutcome.failed), (frameNaN, RegOutcome.failed),
         (frame1, RegOutcome.converged 1 1 true)]).1.dropCount
      ≤ cfgWarm.startupDropCount :=
  ⟨(claim10_dropCountInvariant cfgWarm initTracker frame1 RegOutcome.failed []).1,
   (claim10_dropCountInvariant cfgWarm initTracker frame1 RegOutcome.failed
      [(frame1, RegOutcome.failed), (frameNaN, RegOutcome.failed),
       (frame1, RegOutcome.converged 1 1 true)]).2.2.2.1⟩
